import Mathlib

/-!
Verification of the recipe extraction pipeline in src/src/utils/scrape_recipe.py.

The HTML document is modelled abstractly: a document maps each CSS selector
string to the list of matching nodes (each node carrying the text that
BeautifulSoup get_text with strip=True would produce from it, here a single
text fragment), and carries the list of embedded JSON-LD blocks, each given as
the outcome of decoding it as JSON (none when the decode raises
JSONDecodeError). The primary library attempt and the fallback fetch are
modelled as inputs: an optional field triple for the primary attempt (none
when the library raised), and an Except value for the fetch (error carrying
the transport failure message).
-/

namespace Mizen

/-- Whitespace characters recognised by the Python str.strip method and by the
regex class backslash-s on ASCII text. -/
def isPySpace (c : Char) : Bool :=
  c == ' ' || c == '\t' || c == '\n' || c == '\r' || c == '\x0b' || c == '\x0c'

/-- Python str.strip with no argument: drop leading and trailing whitespace. -/
def pyStrip (s : String) : String :=
  ⟨((s.data.dropWhile isPySpace).reverse.dropWhile isPySpace).reverse⟩

/-- Replace each maximal run of whitespace by a single space, tracking whether
the previous character was whitespace. -/
def collapseGo : Bool → List Char → List Char
  | _, [] => []
  | prev, c :: cs =>
    if isPySpace c then
      if prev then collapseGo true cs else ' ' :: collapseGo true cs
    else c :: collapseGo false cs

/-- The regex substitution replacing every whitespace run by one space, as in
re.sub applied to the extracted text. -/
def collapseWs (s : String) : String :=
  ⟨collapseGo false s.data⟩

/-- Python str.lower on each character. -/
def lowerStr (s : String) : String :=
  ⟨s.data.map Char.toLower⟩

/-- Whether the first list is an initial segment of the second. -/
def strStarts : List Char → List Char → Bool
  | [], _ => true
  | _ :: _, [] => false
  | a :: ps, b :: ss => a == b && strStarts ps ss

/-- The navigational boilerplate test on a candidate title: lowercase it and
test whether it begins with the phrase skip-to or jump-to. -/
def startsBoiler (t : String) : Bool :=
  strStarts "skip to".data (lowerStr t).data || strStarts "jump to".data (lowerStr t).data

/-- Decoded JSON values, the image of json.loads. Objects keep their fields as
an association list with distinct keys, matching a decoded Python dict. -/
inductive Json where
  | null
  | bool (b : Bool)
  | num (n : Int)
  | str (s : String)
  | arr (items : List Json)
  | obj (fields : List (String × Json))

/-- A node of the parsed HTML tree, reduced to the text that get_text with
strip=True yields on it. -/
structure Node where
  text : String

/-- The parsed document: for each CSS selector the list of matching nodes in
document order, and the decoded embedded JSON-LD blocks in document order
(none marks a block whose decode raises JSONDecodeError). -/
structure Doc where
  sel : String → List Node
  ld : List (Option Json)

/-- Outcome of examining one JSON-LD block or one element of a top-level JSON
array: a value to return, nothing (keep scanning), or a raised exception that
escapes the per-block handler and fails the whole rule. -/
inductive LdOut (α : Type) where
  | found (v : α)
  | cont
  | err

/-- Scan the elements of a decoded top-level JSON array, as the inner for loop
over items does: stop at the first returned value or at a raised exception. -/
def scanItems {α : Type} (f : Json → LdOut α) : List Json → LdOut α
  | [] => .cont
  | x :: xs =>
    match f x with
    | .found v => .found v
    | .err => .err
    | .cont => scanItems f xs

/-- Examine one decoded JSON object for the title: take its name key, strip
the value, and accept it when nonempty with length above 3. A non-string name
value raises (the strip attribute is missing), failing the rule. -/
def nameFromItem (j : Json) : LdOut String :=
  match j with
  | .obj fields =>
    match fields.lookup "name" with
    | some (.str s) =>
      if pyStrip s ≠ "" ∧ 3 < (pyStrip s).length then .found (pyStrip s) else .cont
    | some _ => .err
    | none => .cont
  | _ => .cont

/-- Examine one decoded JSON-LD block for the title: a dict is examined
directly, a list is scanned element by element, anything else is skipped. -/
def nameFromBlock (j : Json) : LdOut String :=
  match j with
  | .obj _ => nameFromItem j
  | .arr items => scanItems nameFromItem items
  | _ => .cont

/-- The JSON-LD title rule over the decoded script blocks: undecodable blocks
are skipped individually; a raised exception inside a block fails the rule. -/
def titleFromJsonLd : List (Option Json) → Option String
  | [] => none
  | none :: rest => titleFromJsonLd rest
  | some j :: rest =>
    match nameFromBlock j with
    | .found v => some v
    | .cont => titleFromJsonLd rest
    | .err => none

/-- A CSS single-text title rule: take the first matching node, strip its
text, and accept it when nonempty, longer than 3 characters, and not starting
with navigational boilerplate. -/
def cssTitle (ns : List Node) : Option String :=
  match ns.head? with
  | none => none
  | some tag =>
    if pyStrip tag.text ≠ "" ∧ 3 < (pyStrip tag.text).length ∧
        startsBoiler (pyStrip tag.text) = false then
      some (pyStrip tag.text)
    else none

/-- The selector string whose handling switches to the JSON-LD branch. -/
def jsonLdSel : String := "script[type=\"application/ld+json\"]"

/-- The ordered title selector catalog, transcribed from the source. -/
def title_selectors : List String :=
  [ "h1[itemprop=\"name\"]",
    "[itemprop=\"name\"]",
    ".entry-title",
    ".post-title",
    "h1.entry-title",
    ".recipe-header h1",
    ".single-post h1",
    ".post-header h1",
    ".entry-header h1",
    ".recipe-title",
    ".recipe-name",
    ".recipe-header h1",
    ".recipe-header h2",
    ".recipe-heading",
    ".recipe-name-title",
    ".wprm-recipe-name",
    ".wprm-recipe-title",
    "h1[data-testid=\"recipe-title\"]",
    "[data-testid=\"recipe-title\"]",
    ".recipe-title",
    ".recipe-header h1",
    ".recipe-header__title",
    ".recipe-title",
    ".recipe-title",
    ".entry-title",
    "h1",
    "h2",
    ".title",
    ".heading",
    "[class*=\"title\"]",
    "[class*=\"heading\"]",
    "script[type=\"application/ld+json\"]" ]

/-- Evaluate one title rule on the document. -/
def evalTitleRule (d : Doc) (sel : String) : Option String :=
  if sel = jsonLdSel then titleFromJsonLd d.ld else cssTitle (d.sel sel)

/-- Walk a rule catalog in order, returning the first value a rule yields. -/
def runRules {α : Type} (eval : String → Option α) : List String → Option α
  | [] => none
  | s :: rest =>
    match eval s with
    | some v => some v
    | none => runRules eval rest

/-- The title field extractor: first successful rule in catalog order, with
the empty string when every rule fails. -/
def extract_title (d : Doc) : String :=
  (runRules (evalTitleRule d) title_selectors).getD ""

/-- One recipeIngredient array element: kept stripped when it is a string that
is nonempty after stripping, skipped otherwise. -/
def ingEntry (e : Json) : Option String :=
  match e with
  | .str s => if pyStrip s ≠ "" then some (pyStrip s) else none
  | _ => none

/-- Examine one decoded JSON object for the ingredients: when its
recipeIngredient key holds an array, collect the entries and return them when
at least one was kept; otherwise keep scanning. -/
def ingFromItem (j : Json) : LdOut (List String) :=
  match j with
  | .obj fields =>
    match fields.lookup "recipeIngredient" with
    | some (.arr items) =>
      if items.filterMap ingEntry ≠ [] then .found (items.filterMap ingEntry) else .cont
    | some _ => .cont
    | none => .cont
  | _ => .cont

/-- Examine one decoded JSON-LD block for the ingredients. -/
def ingFromBlock (j : Json) : LdOut (List String) :=
  match j with
  | .obj _ => ingFromItem j
  | .arr items => scanItems ingFromItem items
  | _ => .cont

/-- The JSON-LD ingredients rule over the decoded script blocks. -/
def ingFromJsonLd : List (Option Json) → Option (List String)
  | [] => none
  | none :: rest => ingFromJsonLd rest
  | some j :: rest =>
    match ingFromBlock j with
    | .found v => some v
    | .cont => ingFromJsonLd rest
    | .err => none

/-- The per-node processing of a CSS list-of-texts rule: strip the node text,
keep it when nonempty and longer than minLen, and store it with whitespace
runs collapsed. The length test precedes the collapsing, as in the source. -/
def cssListTexts (minLen : Nat) : List Node → List String
  | [] => []
  | n :: ns =>
    if pyStrip n.text ≠ "" ∧ minLen < (pyStrip n.text).length then
      collapseWs (pyStrip n.text) :: cssListTexts minLen ns
    else cssListTexts minLen ns

/-- A CSS list-of-texts rule: succeed exactly when the kept entries form a
nonempty list. -/
def cssList (minLen : Nat) (ns : List Node) : Option (List String) :=
  match ns with
  | [] => none
  | _ =>
    if cssListTexts minLen ns = [] then none else some (cssListTexts minLen ns)

/-- The ordered ingredient selector catalog, transcribed from the source. -/
def ingredient_selectors : List String :=
  [ "[itemprop=\"ingredients\"]",
    "[itemprop=\"recipeIngredient\"]",
    ".recipe-ingredients li",
    ".ingredients li",
    ".recipe-ingredients-list li",
    ".ingredients-list li",
    ".recipe-ingredient",
    ".ingredient-item",
    ".wprm-recipe-ingredients-container li.wprm-recipe-ingredient",
    ".wprm-recipe-ingredient",
    ".wprm-recipe-ingredients li",
    "[data-testid=\"ingredient-item\"]",
    ".ingredients-item-name",
    ".ingredient-item",
    ".ingredients-list li",
    ".recipe-ingredients li",
    ".ingredients li",
    ".recipe-ingredients__list li",
    ".ingredients-list li",
    ".recipe-ingredients li",
    ".ingredients li",
    "[class*=\"ingredient\"] li",
    "[class*=\"ingredient\"]",
    "li[class*=\"ingredient\"]",
    ".ingredients li",
    ".ingredients-list li",
    ".recipe-ingredients li",
    ".recipe-ingredients-list li",
    "script[type=\"application/ld+json\"]" ]

/-- Evaluate one ingredient rule on the document; the CSS length bound is 2. -/
def evalIngRule (d : Doc) (sel : String) : Option (List String) :=
  if sel = jsonLdSel then ingFromJsonLd d.ld else cssList 2 (d.sel sel)

/-- The ingredients field extractor. -/
def extract_ingredients (d : Doc) : List String :=
  (runRules (evalIngRule d) ingredient_selectors).getD []

/-- One recipeInstructions array element: a string is kept stripped when
nonempty after stripping; an object with a text key keeps the stripped text
value with no further check, raising when that value is not a string;
everything else is skipped. -/
def instrEntry (e : Json) : Except Unit (Option String) :=
  match e with
  | .str s => .ok (if pyStrip s ≠ "" then some (pyStrip s) else none)
  | .obj fields =>
    match fields.lookup "text" with
    | some (.str t) => .ok (some (pyStrip t))
    | some _ => .error ()
    | none => .ok none
  | _ => .ok none

/-- Collect the kept entries of a recipeInstructions array, propagating a
raised exception. -/
def collectInstr : List Json → Except Unit (List String)
  | [] => .ok []
  | e :: es =>
    match instrEntry e with
    | .error u => .error u
    | .ok none => collectInstr es
    | .ok (some t) =>
      match collectInstr es with
      | .error u => .error u
      | .ok ts => .ok (t :: ts)

/-- Examine one decoded JSON object for the instructions. -/
def instrFromItem (j : Json) : LdOut (List String) :=
  match j with
  | .obj fields =>
    match fields.lookup "recipeInstructions" with
    | some (.arr items) =>
      match collectInstr items with
      | .error _ => .err
      | .ok acc => if acc ≠ [] then .found acc else .cont
    | some _ => .cont
    | none => .cont
  | _ => .cont

/-- Examine one decoded JSON-LD block for the instructions. -/
def instrFromBlock (j : Json) : LdOut (List String) :=
  match j with
  | .obj _ => instrFromItem j
  | .arr items => scanItems instrFromItem items
  | _ => .cont

/-- The JSON-LD instructions rule over the decoded script blocks. -/
def instrFromJsonLd : List (Option Json) → Option (List String)
  | [] => none
  | none :: rest => instrFromJsonLd rest
  | some j :: rest =>
    match instrFromBlock j with
    | .found v => some v
    | .cont => instrFromJsonLd rest
    | .err => none

/-- The ordered instruction selector catalog, transcribed from the source. -/
def instruction_selectors : List String :=
  [ "[itemprop=\"recipeInstructions\"]",
    "[itemprop=\"instructions\"]",
    ".recipe-instructions li",
    ".instructions li",
    ".recipe-instructions-list li",
    ".instructions-list li",
    ".recipe-instruction",
    ".instruction-item",
    ".recipe-steps li",
    ".recipe-method li",
    ".wprm-recipe-instructions-container .wprm-recipe-instruction-text",
    ".wprm-recipe-instruction-text",
    ".wprm-recipe-instructions li",
    "[data-testid=\"instruction-step\"]",
    ".instructions-section-item",
    ".paragraph",
    ".instructions-list li",
    ".recipe-instructions li",
    ".instructions li",
    ".recipe-steps li",
    ".recipe-method__list li",
    ".method-list li",
    ".instructions li",
    ".recipe-instructions li",
    ".instructions li",
    ".recipe-steps li",
    "[class*=\"instruction\"]",
    "[class*=\"step\"]",
    "[class*=\"method\"]",
    ".instructions li",
    ".instructions-list li",
    ".recipe-instructions li",
    ".recipe-instructions-list li",
    ".recipe-steps li",
    ".recipe-method li",
    ".method li",
    ".steps li",
    "script[type=\"application/ld+json\"]" ]

/-- Evaluate one instruction rule on the document; the CSS length bound is
10. -/
def evalInstrRule (d : Doc) (sel : String) : Option (List String) :=
  if sel = jsonLdSel then instrFromJsonLd d.ld else cssList 10 (d.sel sel)

/-- The instructions field extractor. -/
def extract_instructions (d : Doc) : List String :=
  (runRules (evalInstrRule d) instruction_selectors).getD []

/-- The JSON-shaped outcome of the pipeline: a recipe or an error object. -/
inductive Result where
  | ok (title : String) (ingredients : List String) (instructions : List String)
  | err (error : String)
  deriving DecidableEq

/-- The completeness validation used after both layers: title truthy, both
lists truthy, both lengths positive. -/
def validRecipe (title : String) (ingredients instructions : List String) : Bool :=
  decide (title ≠ "") && !ingredients.isEmpty && !instructions.isEmpty &&
    decide (0 < ingredients.length) && decide (0 < instructions.length)

/-- The error payload wrapper naming the URL. -/
def scrapeError (url msg : String) : String :=
  "Failed to scrape recipe from " ++ url ++ ": " ++ msg

/-- The message of the exception raised when the fallback extraction is
incomplete. -/
def incompleteMsg (title : String) (ingredients instructions : List String) : String :=
  "Failed to extract complete recipe data: title=\x27" ++ title ++
    "\x27, ingredients=" ++ toString ingredients.length ++
    ", instructions=" ++ toString instructions.length

/-- Layer 2 of the pipeline: on a fetch or decode fault report the transport
error; otherwise run the three field extractors and validate completeness. -/
def layer2 (url : String) (fetched : Except String Doc) : Result :=
  match fetched with
  | .error e => .err (scrapeError url e)
  | .ok d =>
    if validRecipe (extract_title d) (extract_ingredients d) (extract_instructions d) then
      .ok (extract_title d) (extract_ingredients d) (extract_instructions d)
    else
      .err (scrapeError url
        (incompleteMsg (extract_title d) (extract_ingredients d) (extract_instructions d)))

/-- The pipeline: try the primary library triple (none when the library
raised), validate it, and otherwise fall back to layer 2. -/
def parse_recipe (url : String) (primary : Option (String × List String × List String))
    (fetched : Except String Doc) : Result :=
  match primary with
  | some (title, ingredients, instructions) =>
    if validRecipe title ingredients instructions then .ok title ingredients instructions
    else layer2 url fetched
  | none => layer2 url fetched

/-! ### Helper lemmas -/

/-- A failing rule at the head of the catalog is skipped. -/
theorem runRules_cons_none {α : Type} (eval : String → Option α) (s : String)
    (rest : List String) (h : eval s = none) :
    runRules eval (s :: rest) = runRules eval rest := by
  simp [runRules, h]

/-- A succeeding rule at the head of the catalog determines the result. -/
theorem runRules_cons_some {α : Type} (eval : String → Option α) (s : String)
    (rest : List String) (v : α) (h : eval s = some v) :
    runRules eval (s :: rest) = some v := by
  simp [runRules, h]

/-- A block of failing rules at the front of the catalog is skipped. -/
theorem runRules_append_none {α : Type} (eval : String → Option α) (pre rest : List String)
    (h : ∀ r ∈ pre, eval r = none) :
    runRules eval (pre ++ rest) = runRules eval rest := by
  induction pre with
  | nil => rfl
  | cons a as ih =>
    rw [List.cons_append, runRules_cons_none eval a (as ++ rest) (h a (by simp))]
    exact ih (fun r hr => h r (by simp [hr]))

/-- The completeness validation holds exactly when the three fields are
nonempty. -/
theorem validRecipe_iff (t : String) (i s : List String) :
    validRecipe t i s = true ↔ (t ≠ "" ∧ i ≠ [] ∧ s ≠ []) := by
  unfold validRecipe
  simp only [Bool.and_eq_true, decide_eq_true_eq, Bool.not_eq_true']
  constructor
  · rintro ⟨⟨⟨⟨h1, _⟩, _⟩, h4⟩, h5⟩
    exact ⟨h1, List.ne_nil_of_length_pos h4, List.ne_nil_of_length_pos h5⟩
  · rintro ⟨h1, h2, h3⟩
    refine ⟨⟨⟨⟨h1, ?_⟩, ?_⟩, List.length_pos.mpr h2⟩, List.length_pos.mpr h3⟩
    · cases i with
      | nil => exact absurd rfl h2
      | cons a as => rfl
    · cases s with
      | nil => exact absurd rfl h3
      | cons a as => rfl

/-- A success out of layer 2 passed the completeness validation. -/
theorem layer2_ok (url : String) (fetched : Except String Doc) (t : String)
    (i s : List String) (h : layer2 url fetched = Result.ok t i s) :
    t ≠ "" ∧ i ≠ [] ∧ s ≠ [] := by
  cases fetched with
  | error e => exact Result.noConfusion h
  | ok d =>
    simp only [layer2] at h
    split at h
    · rename_i hv
      injection h with h1 h2 h3
      subst h1; subst h2; subst h3
      exact (validRecipe_iff _ _ _).mp hv
    · exact Result.noConfusion h

/-! ### Claims -/

/-- Claim C1: for every URL, primary outcome and fetch outcome, parse_recipe
returns exactly one of the two shapes: a recipe result or an error result,
never both, and (being a total function on these inputs) never raises past
its boundary. -/
theorem c1_result_shape (url : String) (primary : Option (String × List String × List String))
    (fetched : Except String Doc) :
    ((∃ t i s, parse_recipe url primary fetched = Result.ok t i s) ∧
      ∀ m, parse_recipe url primary fetched ≠ Result.err m) ∨
    ((∃ m, parse_recipe url primary fetched = Result.err m) ∧
      ∀ t i s, parse_recipe url primary fetched ≠ Result.ok t i s) := by
  cases h : parse_recipe url primary fetched with
  | ok t i s => exact Or.inl ⟨⟨t, i, s, rfl⟩, fun m hm => Result.noConfusion hm⟩
  | err m => exact Or.inr ⟨⟨m, rfl⟩, fun t i s hm => Result.noConfusion hm⟩

/-- Witness for C1 at a concrete failing fetch. -/
theorem c1_result_shape_witness :
    ((∃ t i s, parse_recipe "u" none (Except.error "boom") = Result.ok t i s) ∧
      ∀ m, parse_recipe "u" none (Except.error "boom") ≠ Result.err m) ∨
    ((∃ m, parse_recipe "u" none (Except.error "boom") = Result.err m) ∧
      ∀ t i s, parse_recipe "u" none (Except.error "boom") ≠ Result.ok t i s) :=
  c1_result_shape "u" none (Except.error "boom")

/-- Claim C2: every success result of the pipeline has a nonempty title, a
nonempty ingredients list and a nonempty instructions list. -/
theorem c2_success_nonempty (url : String)
    (primary : Option (String × List String × List String)) (fetched : Except String Doc)
    (t : String) (i s : List String)
    (h : parse_recipe url primary fetched = Result.ok t i s) :
    t ≠ "" ∧ i ≠ [] ∧ s ≠ [] := by
  cases primary with
  | none => exact layer2_ok url fetched t i s h
  | some trip =>
    obtain ⟨t0, i0, s0⟩ := trip
    simp only [parse_recipe] at h
    split at h
    · rename_i hv
      injection h with h1 h2 h3
      subst h1; subst h2; subst h3
      exact (validRecipe_iff _ _ _).mp hv
    · exact layer2_ok url fetched t i s h

/-- Witness for C2 at a concrete complete primary attempt. -/
theorem c2_success_nonempty_witness :
    (parse_recipe "u" (some ("Cake", ["egg"], ["Bake well"])) (Except.error "net down")
      = Result.ok "Cake" ["egg"] ["Bake well"]) ∧
    ("Cake" ≠ "" ∧ (["egg"] : List String) ≠ [] ∧ (["Bake well"] : List String) ≠ []) :=
  ⟨by decide,
    c2_success_nonempty "u" (some ("Cake", ["egg"], ["Bake well"])) (Except.error "net down")
      "Cake" ["egg"] ["Bake well"] (by decide)⟩

/-- Claim C3: when the primary attempt yields a nonempty title and nonempty
lists, the pipeline returns exactly those values, and the result does not
depend on the fallback fetch in any way. -/
theorem c3_primary_complete (url t : String) (i s : List String)
    (fetched fetched2 : Except String Doc)
    (h1 : t ≠ "") (h2 : i ≠ []) (h3 : s ≠ []) :
    parse_recipe url (some (t, i, s)) fetched = Result.ok t i s ∧
    parse_recipe url (some (t, i, s)) fetched = parse_recipe url (some (t, i, s)) fetched2 := by
  have hv : validRecipe t i s = true := (validRecipe_iff t i s).mpr ⟨h1, h2, h3⟩
  constructor <;> simp [parse_recipe, hv]

/-- Witness for C3 with two distinct fetch outcomes. -/
theorem c3_primary_complete_witness :
    ("Cake" ≠ "" ∧ (["egg"] : List String) ≠ [] ∧ (["Bake well"] : List String) ≠ []) ∧
    (parse_recipe "u" (some ("Cake", ["egg"], ["Bake well"])) (Except.error "a")
        = Result.ok "Cake" ["egg"] ["Bake well"] ∧
      parse_recipe "u" (some ("Cake", ["egg"], ["Bake well"])) (Except.error "a")
        = parse_recipe "u" (some ("Cake", ["egg"], ["Bake well"])) (Except.error "b")) :=
  ⟨by decide,
    c3_primary_complete "u" "Cake" ["egg"] ["Bake well"] (Except.error "a") (Except.error "b")
      (by decide) (by decide) (by decide)⟩

/-- Claim C4: in each of the three field extractors, a rule that succeeds
while every rule before it in the catalog fails determines the returned
value, whatever the rules after it would yield. -/
theorem c4_first_rule_wins (d : Doc) :
    (∀ pre sel post v, title_selectors = pre ++ sel :: post →
      evalTitleRule d sel = some v → (∀ r ∈ pre, evalTitleRule d r = none) →
      extract_title d = v) ∧
    (∀ pre sel post v, ingredient_selectors = pre ++ sel :: post →
      evalIngRule d sel = some v → (∀ r ∈ pre, evalIngRule d r = none) →
      extract_ingredients d = v) ∧
    (∀ pre sel post v, instruction_selectors = pre ++ sel :: post →
      evalInstrRule d sel = some v → (∀ r ∈ pre, evalInstrRule d r = none) →
      extract_instructions d = v) := by
  refine ⟨?_, ?_, ?_⟩ <;>
  · intro pre sel post v hcat hv hpre
    first
      | unfold extract_title
      | unfold extract_ingredients
      | unfold extract_instructions
    rw [hcat, runRules_append_none _ _ _ hpre, runRules_cons_some _ _ _ _ hv]
    rfl

/-- A document whose only selector match is an entry-title node. -/
def d4w : Doc :=
  ⟨fun s => if s = ".entry-title" then [⟨"Chocolate Cake"⟩] else [], []⟩

/-- Witness for C4: the third title rule succeeds, the first two fail. -/
theorem c4_first_rule_wins_witness :
    (title_selectors
        = ["h1[itemprop=\"name\"]", "[itemprop=\"name\"]"] ++ ".entry-title" :: title_selectors.drop 3) ∧
    (evalTitleRule d4w ".entry-title" = some "Chocolate Cake") ∧
    (∀ r ∈ ["h1[itemprop=\"name\"]", "[itemprop=\"name\"]"], evalTitleRule d4w r = none) ∧
    extract_title d4w = "Chocolate Cake" :=
  ⟨by decide, by decide, by decide,
    (c4_first_rule_wins d4w).1 ["h1[itemprop=\"name\"]", "[itemprop=\"name\"]"] ".entry-title"
      (title_selectors.drop 3) "Chocolate Cake" (by decide) (by decide) (by decide)⟩

/-- A document whose only selector match is one instruction node whose
stripped text has 11 characters but collapses to 8 characters. -/
def d5x : Doc :=
  ⟨fun s => if s = "[itemprop=\"recipeInstructions\"]" then [⟨"ab cd    ef"⟩] else [], []⟩

/-- Claim C5 counterexample: the node text strips to an 11-character string
that the instruction rule keeps, yet its collapsed form has only 8
characters, not exceeding the minimum length of 10 — so an entry is kept
whose resulting text does not exceed the minimum, against the claim. -/
theorem c5_counterexample :
    extract_instructions d5x = ["ab cd ef"] ∧
    pyStrip "ab cd    ef" = "ab cd    ef" ∧
    collapseWs "ab cd    ef" = "ab cd ef" ∧
    ¬ 10 < ("ab cd ef").length := by decide

/-- Claim C5 (amended): in a CSS list-of-texts rule the kept entries are
exactly the nodes whose stripped text, before whitespace collapsing, exceeds
the minimum length, each stored with its whitespace runs collapsed; the
strict boundaries hold for the stripped pre-collapse text. -/
theorem c5_filter_pre_collapse (m : Nat) (hm : 0 < m) (ns : List Node) :
    cssListTexts m ns
      = ((ns.map fun n => pyStrip n.text).filter fun t => decide (m < t.length)).map
          collapseWs := by
  induction ns with
  | nil => rfl
  | cons n ns ih =>
    by_cases h : m < (pyStrip n.text).length
    · have hne : pyStrip n.text ≠ "" := by
        intro he
        rw [he] at h
        have h0 : ("" : String).length = 0 := rfl
        omega
      simp only [cssListTexts, List.map_cons, List.filter_cons]
      rw [if_pos ⟨hne, h⟩, if_pos (by simpa using h)]
      simp [ih]
    · have hcond : ¬(pyStrip n.text ≠ "" ∧ m < (pyStrip n.text).length) := fun hc => h hc.2
      simp only [cssListTexts, List.map_cons, List.filter_cons]
      rw [if_neg hcond, if_neg (by simpa using h)]
      exact ih

/-- Witness for the amended C5 at the instruction bound. -/
theorem c5_filter_pre_collapse_witness :
    0 < 10 ∧
    cssListTexts 10 [Node.mk "Stir the pot well"]
      = ((([Node.mk "Stir the pot well"]).map fun n => pyStrip n.text).filter
          fun t => decide (10 < t.length)).map collapseWs :=
  ⟨by decide, c5_filter_pre_collapse 10 (by decide) [Node.mk "Stir the pot well"]⟩

/-- The JSON-LD block of the tomato soup scenario. -/
def block6 : Json := Json.obj
  [ ("name", Json.str "Tomato Soup"),
    ("recipeIngredient", Json.arr [Json.str "1 cup tomato", Json.str "2 tbsp oil"]),
    ("recipeInstructions", Json.arr [Json.str "Heat oil.", Json.str "Add tomato and simmer."]) ]

/-- The same block with each instruction given as an object with a text key. -/
def block6b : Json := Json.obj
  [ ("name", Json.str "Tomato Soup"),
    ("recipeIngredient", Json.arr [Json.str "1 cup tomato", Json.str "2 tbsp oil"]),
    ("recipeInstructions", Json.arr
      [ Json.obj [("text", Json.str "Heat oil.")],
        Json.obj [("text", Json.str "Add tomato and simmer.")] ]) ]

/-- A document whose only recipe data is the scenario block. -/
def d6a : Doc := ⟨fun _ => [], [some block6]⟩

/-- A document whose block carries instruction objects with text keys. -/
def d6b : Doc := ⟨fun _ => [], [some block6b]⟩

/-- A document whose block is a list wrapping the scenario object. -/
def d6c : Doc := ⟨fun _ => [], [some (Json.arr [block6])]⟩

/-- Claim C6: the extractors map name to title, recipeIngredient to
ingredients and recipeInstructions to instructions, for a block that is a
plain object, one whose instruction entries are objects with a text key, and
one wrapped in a list; the tomato soup scenario yields exactly the stated
result. -/
theorem c6_jsonld_mapping :
    extract_title d6a = "Tomato Soup" ∧
    extract_ingredients d6a = ["1 cup tomato", "2 tbsp oil"] ∧
    extract_instructions d6a = ["Heat oil.", "Add tomato and simmer."] ∧
    extract_instructions d6b = ["Heat oil.", "Add tomato and simmer."] ∧
    extract_title d6c = "Tomato Soup" ∧
    extract_ingredients d6c = ["1 cup tomato", "2 tbsp oil"] ∧
    extract_instructions d6c = ["Heat oil.", "Add tomato and simmer."] := by decide

/-- The valid block that follows a malformed one in the C7 document. -/
def block7 : Json := Json.obj
  [ ("name", Json.str "Tomato Soup"),
    ("recipeIngredient", Json.arr [Json.str "1 cup tomato", Json.str "2 tbsp oil"]),
    ("recipeInstructions", Json.arr [Json.str "Heat oil.", Json.str "Add tomato and simmer."]) ]

/-- A document with one malformed JSON block before a valid one. -/
def d7x : Doc := ⟨fun _ => [], [none, some block7]⟩

/-- Claim C7: a block that fails to decode is skipped individually in each of
the three JSON-LD rules, and a document with a malformed block before a valid
one still yields the values of the valid block. -/
theorem c7_malformed_skipped :
    (∀ rest, titleFromJsonLd (none :: rest) = titleFromJsonLd rest) ∧
    (∀ rest, ingFromJsonLd (none :: rest) = ingFromJsonLd rest) ∧
    (∀ rest, instrFromJsonLd (none :: rest) = instrFromJsonLd rest) ∧
    extract_title d7x = "Tomato Soup" ∧
    extract_ingredients d7x = ["1 cup tomato", "2 tbsp oil"] ∧
    extract_instructions d7x = ["Heat oil.", "Add tomato and simmer."] :=
  ⟨fun _ => rfl, fun _ => rfl, fun _ => rfl, by decide, by decide, by decide⟩

/-- Claim C8: a CSS single-text title rule only returns a candidate whose
trimmed text has length above 3 and does not start with navigational
boilerplate, and a rule returning nothing makes evaluation proceed to the
next rule. -/
theorem c8_css_title_validity :
    (∀ ns t, cssTitle ns = some t → 3 < t.length ∧ startsBoiler t = false) ∧
    (∀ d sel rest, evalTitleRule d sel = none →
      runRules (evalTitleRule d) (sel :: rest) = runRules (evalTitleRule d) rest) := by
  constructor
  · intro ns t h
    cases ns with
    | nil => exact Option.noConfusion h
    | cons a as =>
      simp only [cssTitle, List.head?] at h
      split at h
      · rename_i hcond
        injection h with he
        subst he
        exact ⟨hcond.2.1, hcond.2.2⟩
      · exact Option.noConfusion h
  · intro d sel rest h
    exact runRules_cons_none _ _ _ h

/-- Witness for C8 at a concrete node. -/
theorem c8_css_title_validity_witness :
    (cssTitle [Node.mk "  Yummy Pie  "] = some "Yummy Pie") ∧
    (3 < ("Yummy Pie").length ∧ startsBoiler "Yummy Pie" = false) :=
  ⟨by decide, c8_css_title_validity.1 [Node.mk "  Yummy Pie  "] "Yummy Pie" (by decide)⟩

/-- A block whose ingredient entries have 1 and 2 non-whitespace characters. -/
def block9a : Json := Json.obj
  [ ("recipeIngredient", Json.arr [Json.str "a", Json.str "ab"]) ]

/-- A document carrying only that short-ingredient block. -/
def d9a : Doc := ⟨fun _ => [], [some block9a]⟩

/-- A block whose single instruction entry is an object whose text value is
whitespace only. -/
def block9b : Json := Json.obj
  [ ("name", Json.str "Tomato Bisque"),
    ("recipeIngredient", Json.arr [Json.str "1 cup tomato"]),
    ("recipeInstructions", Json.arr [Json.obj [("text", Json.str "   ")]]) ]

/-- A document carrying only that block. -/
def d9b : Doc := ⟨fun _ => [], [some block9b]⟩

/-- Claim C9: the JSON-LD path applies no minimum-length filter: 1- and
2-character ingredient entries are kept, an instruction object with a
whitespace-only text value contributes an empty string, and the pipeline
returns that empty string inside a success result. -/
theorem c9_jsonld_no_length_filter :
    extract_ingredients d9a = ["a", "ab"] ∧
    extract_instructions d9b = [""] ∧
    parse_recipe "http://example.test" none (Except.ok d9b)
      = Result.ok "Tomato Bisque" ["1 cup tomato"] [""] := by decide

/-- A block whose name starts with the skip-to boilerplate phrase. -/
def block10 : Json := Json.obj [("name", Json.str "Skip to the good part")]

/-- A document carrying only that block. -/
def d10x : Doc := ⟨fun _ => [], [some block10]⟩

/-- Claim C10: the boilerplate rejection applies only on the CSS path: the
same text is rejected by the CSS title rule yet returned by the JSON-LD
path. -/
theorem c10_boiler_only_css :
    startsBoiler "Skip to the good part" = true ∧
    3 < ("Skip to the good part").length ∧
    extract_title d10x = "Skip to the good part" ∧
    cssTitle [Node.mk "Skip to the good part"] = none := by decide

end Mizen

